import Mathlib

/-!
Verification development for the launchd core (launchd.c, launchctl.c).

The definitions below are shallow embeddings of the C functions named in
their doc comments.  Machine integers are modelled as `Int`/`Nat`;
fallible operations return `Option`.  The C library's calendar functions
`localtime`/`mktime` (external to this repository) are modelled as a
proleptic Gregorian civil calendar in a fixed timezone with no DST and no
leap seconds, which is the semantics the spec assumes for the cron-next
laws.
-/

namespace Launchd

/-! ## Numeric constants (launchd.c lines 66-68; Darwin errno/signal values) -/

/-- `LAUNCHD_MIN_JOB_RUN_TIME` from launchd.c. -/
def LAUNCHD_MIN_JOB_RUN_TIME : Int := 10
/-- `LAUNCHD_REWARD_JOB_RUN_TIME` from launchd.c. -/
def LAUNCHD_REWARD_JOB_RUN_TIME : Int := 60
/-- `LAUNCHD_FAILED_EXITS_THRESHOLD` from launchd.c. -/
def LAUNCHD_FAILED_EXITS_THRESHOLD : Nat := 10

def ESRCH : Int := 3
def EACCES : Int := 13
def EEXIST : Int := 17
def EINVAL : Int := 22
def ENOSYS : Int := 78

def SIGKILL : Int := 9
def SIGTERM : Int := 15

/-! ## Civil calendar model for `localtime`/`mktime`

Modelled from the spec: the property-list core calls the C library's
`localtime`/`mktime` (not part of this repository).  We model them over a
proleptic Gregorian calendar at UTC offset 0 with `tm_isdst` ignored.
`days_from_civil`/`civil_from_days` are the standard bijection between
(year, month 1..12, day) triples and days since 1970-01-01. -/

/-- Days since 1970-01-01 of the civil date y-m-d (m in 1..12, y any). -/
def days_from_civil (y m d : Int) : Int :=
  let y' := if m ≤ 2 then y - 1 else y
  let era := y'.fdiv 400
  let yoe := y' - era * 400
  let mp := if m > 2 then m - 3 else m + 9
  let doy := (153 * mp + 2).fdiv 5 + d - 1
  let doe := yoe * 365 + yoe.fdiv 4 - yoe.fdiv 100 + doy
  era * 146097 + doe - 719468

/-- Civil date (y, m in 1..12, d) of a count of days since 1970-01-01. -/
def civil_from_days (z : Int) : Int × Int × Int :=
  let z' := z + 719468
  let era := z'.fdiv 146097
  let doe := z' - era * 146097
  let yoe := (doe - doe.fdiv 1460 + doe.fdiv 36524 - doe.fdiv 146096).fdiv 365
  let y := yoe + era * 400
  let doy := doe - (365 * yoe + yoe.fdiv 4 - yoe.fdiv 100)
  let mp := (5 * doy + 2).fdiv 153
  let d := doy - (153 * mp + 2).fdiv 5 + 1
  let m := if mp < 10 then mp + 3 else mp - 9
  (if m ≤ 2 then y + 1 else y, m, d)

/-- The broken-down time `struct tm` (fields the cron code touches).
`tm_year` is years since 1900 and `tm_mon` is 0-based, as in C. -/
structure Tm where
  tm_sec : Int
  tm_min : Int
  tm_hour : Int
  tm_mday : Int
  tm_mon : Int
  tm_year : Int
  tm_wday : Int
deriving Repr, DecidableEq

/-- `mktime` value semantics: interpret possibly out-of-range fields by
linear carrying (months into years, days/hours/minutes/seconds into the
timestamp), returning seconds since the epoch. -/
def tm_to_secs (t : Tm) : Int :=
  let months := (t.tm_year + 1900) * 12 + t.tm_mon
  let y := months.fdiv 12
  let m := months - 12 * (months.fdiv 12) + 1
  let days := days_from_civil y m 1 + (t.tm_mday - 1)
  days * 86400 + t.tm_hour * 3600 + t.tm_min * 60 + t.tm_sec

/-- `localtime` model: fully normalized broken-down time of a timestamp. -/
def secs_to_tm (s : Int) : Tm :=
  let days := s.fdiv 86400
  let rem := s - days * 86400
  let c := civil_from_days days
  { tm_sec := rem % 60
    tm_min := (rem.fdiv 60) % 60
    tm_hour := rem.fdiv 3600
    tm_mday := c.2.2
    tm_mon := c.2.1 - 1
    tm_year := c.1 - 1900
    tm_wday := (days + 4) % 7 }

/-- The in-place normalization `mktime(&tm)` performs on its argument. -/
def mktime_norm (t : Tm) : Tm := secs_to_tm (tm_to_secs t)

/-! ## The cron emulator (launchd.c `cronemu*`, lines 2238-2400)

Each function returns the value of the caller's `struct tm` after the
call together with the C `bool` result; loops take a fuel parameter and
return `none` on fuel exhaustion (the C loops have no iteration bound). -/

/-- `cronemu_min` (launchd.c:2386-2400). -/
def cronemu_min (wtm : Tm) (mn : Int) : Tm × Bool :=
  if mn = -1 then (wtm, true)
  else if mn < wtm.tm_min then (wtm, false)
  else if mn > wtm.tm_min then ({ wtm with tm_min := mn }, true)
  else (wtm, true)

/-- The `hour == -1` loop of `cronemu_hour` (launchd.c:2359-2372); works on
a local copy, so a `false` result discards the mutations. -/
def cronemu_hour_wild : Nat → Tm → Int → Option (Tm × Bool)
  | 0, _, _ => none
  | Nat.succ f, w, mn =>
    let p := cronemu_min w mn
    if p.2 then some (p.1, true)
    else
      let carrytest := p.1.tm_hour + 1
      let w2 := mktime_norm { p.1 with tm_hour := p.1.tm_hour + 1, tm_min := 0 }
      if carrytest ≠ w2.tm_hour then some (p.1, false)
      else cronemu_hour_wild f w2 mn

/-- `cronemu_hour` (launchd.c:2356-2384). -/
def cronemu_hour (fuel : Nat) (wtm : Tm) (hour mn : Int) : Option (Tm × Bool) :=
  if hour = -1 then
    match cronemu_hour_wild fuel wtm mn with
    | none => none
    | some (w, true) => some (w, true)
    | some (_, false) => some (wtm, false)
  else if hour < wtm.tm_hour then some (wtm, false)
  else
    let w1 := if hour > wtm.tm_hour then { wtm with tm_hour := hour, tm_min := 0 } else wtm
    some (cronemu_min w1 mn)

/-- The `mday == -1` loop of `cronemu_mday` (launchd.c:2327-2341). -/
def cronemu_mday_wild : Nat → Tm → Int → Int → Option (Tm × Bool)
  | 0, _, _, _ => none
  | Nat.succ f, w, hour, mn =>
    match cronemu_hour (Nat.succ f) w hour mn with
    | none => none
    | some (w1, true) => some (w1, true)
    | some (w1, false) =>
      let carrytest := w1.tm_mday + 1
      let w2 := mktime_norm { w1 with tm_mday := w1.tm_mday + 1, tm_hour := 0, tm_min := 0 }
      if carrytest ≠ w2.tm_mday then some (w1, false)
      else cronemu_mday_wild f w2 hour mn

/-- `cronemu_mday` (launchd.c:2324-2354). -/
def cronemu_mday (fuel : Nat) (wtm : Tm) (mday hour mn : Int) : Option (Tm × Bool) :=
  if mday = -1 then
    match cronemu_mday_wild fuel wtm hour mn with
    | none => none
    | some (w, true) => some (w, true)
    | some (_, false) => some (wtm, false)
  else if mday < wtm.tm_mday then some (wtm, false)
  else
    let w1 := if mday > wtm.tm_mday then
        { wtm with tm_mday := mday, tm_hour := 0, tm_min := 0 } else wtm
    cronemu_hour fuel w1 hour mn

/-- The `mon == -1` loop of `cronemu_mon` (launchd.c:2293-2308). -/
def cronemu_mon_wild : Nat → Tm → Int → Int → Int → Option (Tm × Bool)
  | 0, _, _, _, _ => none
  | Nat.succ f, w, mday, hour, mn =>
    match cronemu_mday (Nat.succ f) w mday hour mn with
    | none => none
    | some (w1, true) => some (w1, true)
    | some (w1, false) =>
      let carrytest := w1.tm_mon + 1
      let w2 := mktime_norm { w1 with tm_mon := w1.tm_mon + 1, tm_mday := 1,
                                      tm_hour := 0, tm_min := 0 }
      if carrytest ≠ w2.tm_mon then some (w1, false)
      else cronemu_mon_wild f w2 mday hour mn

/-- `cronemu_mon` (launchd.c:2290-2322). -/
def cronemu_mon (fuel : Nat) (wtm : Tm) (mon mday hour mn : Int) : Option (Tm × Bool) :=
  if mon = -1 then
    match cronemu_mon_wild fuel wtm mday hour mn with
    | none => none
    | some (w, true) => some (w, true)
    | some (_, false) => some (wtm, false)
  else if mon < wtm.tm_mon then some (wtm, false)
  else
    let w1 := if mon > wtm.tm_mon then
        { wtm with tm_mon := mon, tm_mday := 1, tm_hour := 0, tm_min := 0 } else wtm
    cronemu_mday fuel w1 mday hour mn

/-- The year-bumping loop of `cronemu` (launchd.c:2251-2258). -/
def cronemu_loop : Nat → Tm → Int → Int → Int → Int → Option Tm
  | 0, _, _, _, _, _ => none
  | Nat.succ f, w, mon, mday, hour, mn =>
    match cronemu_mon (Nat.succ f) w mon mday hour mn with
    | none => none
    | some (w1, true) => some w1
    | some (w1, false) =>
      let w2 := mktime_norm { w1 with tm_year := w1.tm_year + 1, tm_mon := 0,
                                      tm_mday := 1, tm_hour := 0, tm_min := 0 }
      cronemu_loop f w2 mon mday hour mn

/-- `cronemu` (launchd.c:2238-2261), parametrized by the current time. -/
def cronemu (fuel : Nat) (mon mday hour mn : Int) (now : Int) : Option Int :=
  let w0 := secs_to_tm now
  let w1 := { w0 with tm_sec := 0, tm_min := w0.tm_min + 1 }
  (cronemu_loop fuel w1 mon mday hour mn).map tm_to_secs

/-- The body of the `cronemu_wday` loop (launchd.c:2280-2284): advance one
whole day, re-run `cronemu_hour` (result ignored, mutations kept) and
re-normalize with `mktime`. -/
def cronemu_wday_body (fuel : Nat) (wb : Tm) (hour mn : Int) : Option Tm :=
  match cronemu_hour fuel
      { wb with tm_mday := wb.tm_mday + 1, tm_hour := 0, tm_min := 0 } hour mn with
  | none => none
  | some (w2, _) => some (mktime_norm w2)

/-- The day-bumping loop of `cronemu_wday` (launchd.c:2279-2285).  The loop
condition short-circuits: `cronemu_hour` runs only when the weekday already
matches, and its mutations persist into the loop body. -/
def cronemu_wday_loop : Nat → Tm → Int → Int → Int → Option Tm
  | 0, _, _, _, _ => none
  | Nat.succ f, w, wday, hour, mn =>
    if w.tm_wday ≠ wday then
      match cronemu_wday_body (Nat.succ f) w hour mn with
      | none => none
      | some w' => cronemu_wday_loop f w' wday hour mn
    else
      match cronemu_hour (Nat.succ f) w hour mn with
      | none => none
      | some (w1, true) => some w1
      | some (w1, false) =>
        match cronemu_wday_body (Nat.succ f) w1 hour mn with
        | none => none
        | some w' => cronemu_wday_loop f w' wday hour mn

/-- `cronemu_wday` (launchd.c:2263-2288), parametrized by the current time. -/
def cronemu_wday (fuel : Nat) (wday hour mn : Int) (now : Int) : Option Int :=
  let w0 := secs_to_tm now
  let w1 := { w0 with tm_sec := 0, tm_min := w0.tm_min + 1 }
  let wday' := if wday = 7 then 0 else wday
  (cronemu_wday_loop fuel w1 wday' hour mn).map tm_to_secs

/-- The calendar spec a job stores in `j->start_cal_interval`
(launchd.c:1177-1195): -1 is the wildcard. -/
structure CalSpec where
  tm_min : Int
  tm_hour : Int
  tm_mday : Int
  tm_wday : Int
  tm_mon : Int
deriving Repr, DecidableEq

/-- `job_set_alarm` (launchd.c:2123-2146): the absolute time armed for a
calendar spec (the kevent registration itself is outside the model). -/
def job_set_alarm_time (fuel : Nat) (spec : CalSpec) (now : Int) : Option Int :=
  match cronemu fuel spec.tm_mon spec.tm_mday spec.tm_hour spec.tm_min now with
  | none => none
  | some later =>
    if spec.tm_wday ≠ -1 then
      match cronemu_wday fuel spec.tm_wday spec.tm_hour spec.tm_min now with
      | none => none
      | some otherlater =>
        some (if spec.tm_mday ≠ -1 then min later otherlater else otherlater)
    else some later

/-! ## The typed value tree (`launch_data_t`)

Modelled from the spec (§3, §4.A): the liblaunch value-tree container is
not part of this repository's two source files; dictionaries preserve
insertion order, inserting an existing key replaces in place, lookups on a
value of the wrong type return NULL (here `none`), and payload readers on
a value of the wrong type return NULL/0/false. -/

mutual
inductive LaunchData where
  | ld_dict : LDDict → LaunchData
  | ld_array : LDArr → LaunchData
  | ld_string : String → LaunchData
  | ld_integer : Int → LaunchData
  | ld_bool : Bool → LaunchData
  | ld_fd : Int → LaunchData
  | ld_errno : Int → LaunchData
  | ld_blob : LaunchData
inductive LDDict where
  | nil : LDDict
  | cons : String → LaunchData → LDDict → LDDict
inductive LDArr where
  | nil : LDArr
  | cons : LaunchData → LDArr → LDArr
end

deriving instance DecidableEq for LaunchData
deriving instance DecidableEq for LDDict
deriving instance DecidableEq for LDArr

/-- `launch_data_dict_lookup` on the entry list: first binding wins. -/
def LDDict.lookup : LDDict → String → Option LaunchData
  | .nil, _ => none
  | .cons k v rest, key => if k = key then some v else rest.lookup key

/-- `launch_data_dict_insert`: replace in place preserving position, else
append (spec §4.A). -/
def LDDict.insert : LDDict → String → LaunchData → LDDict
  | .nil, key, v => .cons key v .nil
  | .cons k v0 rest, key, v =>
    if k = key then .cons k v rest else .cons k v0 (rest.insert key v)

/-- `launch_data_dict_lookup`: NULL on a non-dictionary. -/
def launch_data_dict_lookup : LaunchData → String → Option LaunchData
  | .ld_dict es, key => es.lookup key
  | _, _ => none

/-- `launch_data_dict_insert` at the value level (no-op on non-dicts,
which the C never does). -/
def launch_data_dict_insert (d : LaunchData) (key : String) (v : LaunchData) : LaunchData :=
  match d with
  | .ld_dict es => .ld_dict (es.insert key v)
  | other => other

/-- `launch_data_get_string`: NULL unless the value is a string. -/
def launch_data_get_string : LaunchData → Option String
  | .ld_string s => some s
  | _ => none

/-- `launch_data_get_bool`: false unless the value is a bool. -/
def launch_data_get_bool : LaunchData → Bool
  | .ld_bool b => b
  | _ => false

/-- `launch_data_get_integer`: 0 unless the value is an integer. -/
def launch_data_get_integer : LaunchData → Int
  | .ld_integer i => i
  | _ => 0

mutual
/-- `launch_data_revoke_fds` (spec §4.A): set every `Fd` payload to -1. -/
def launch_data_revoke_fds : LaunchData → LaunchData
  | .ld_dict es => .ld_dict es.revoke_fds
  | .ld_array es => .ld_array es.revoke_fds
  | .ld_fd _ => .ld_fd (-1)
  | other => other
def LDDict.revoke_fds : LDDict → LDDict
  | .nil => .nil
  | .cons k v rest => .cons k (launch_data_revoke_fds v) rest.revoke_fds
def LDArr.revoke_fds : LDArr → LDArr
  | .nil => .nil
  | .cons v rest => .cons (launch_data_revoke_fds v) rest.revoke_fds
end

/-- `job_get_string` (launchd.c:569-581). -/
def job_get_string (j : LaunchData) (key : String) : Option String :=
  match launch_data_dict_lookup j key with
  | some t => launch_data_get_string t
  | none => none

/-- `job_get_bool` (launchd.c:603-615). -/
def job_get_bool (j : LaunchData) (key : String) : Bool :=
  match launch_data_dict_lookup j key with
  | some t => launch_data_get_bool t
  | none => false

/-! ## Jobs and supervision (launchd.c `struct jobcb`, `job_*`)

A registry entry: the fields of `struct jobcb` the verified code paths
touch.  Descriptor numbers, kevent registrations and child-side setup are
kernel effects outside the state. -/

structure JobState where
  label : String
  ldj : LaunchData
  p : Int
  start_time : Int
  failed_exits : Nat
  throttle : Bool
  checkedin : Bool
  firstborn : Bool
  execfd : Int
  debug : Bool
deriving DecidableEq

/-- The exit status `waitpid` reports: `WIFEXITED`/`WEXITSTATUS` or
`WIFSIGNALED`/`WTERMSIG` (mutually exclusive). -/
inductive WaitStatus where
  | exited : Int → WaitStatus
  | signaled : Int → WaitStatus
deriving Repr, DecidableEq

/-- `job_reap` (launchd.c:1311-1372), parametrized by the current time and
the reaped status.  `waitpid` is assumed to succeed; the closed `execfd`
and the decremented global `total_children` counter are the only effects
besides the fields below. -/
def job_reap (j : JobState) (status : WaitStatus) (now : Int) : JobState :=
  let od := job_get_bool j.ldj "OnDemand"
  let td := now - j.start_time
  let bad_exit : Bool :=
    match status with
    | .exited c => c != 0
    | .signaled s => !(s == SIGKILL || s == SIGTERM)
  let j := { j with execfd := 0 }
  let jb : JobState × Bool :=
    if ¬od then
      if td < LAUNCHD_MIN_JOB_RUN_TIME then ({ j with throttle := true }, true)
      else if td ≥ LAUNCHD_REWARD_JOB_RUN_TIME then ({ j with failed_exits := 0 }, bad_exit)
      else (j, bad_exit)
    else (j, bad_exit)
  let j := if jb.2 then { jb.1 with failed_exits := jb.1.failed_exits + 1 } else jb.1
  { j with p := 0 }

/-- `job_restart_fitness_test` (launchd.c:1374-1398): the boolean result.
The side actions (shutdown on firstborn, removal, re-watch) are driven by
which branch fails and are captured in `job_callback_proc`. -/
def job_restart_fitness_test (shutdown_in_progress : Bool) (j : JobState) : Bool :=
  let od := job_get_bool j.ldj "OnDemand"
  if j.firstborn then false
  else if job_get_bool j.ldj "ServiceIPC" ∧ ¬j.checkedin then false
  else if j.failed_exits ≥ LAUNCHD_FAILED_EXITS_THRESHOLD then false
  else if od ∨ shutdown_in_progress then false
  else true

/-- What the `EVFILT_PROC` arm of `job_callback` does after the fitness
test: start at once, defer by a one-shot timer of the given seconds, or
not restart. -/
inductive ReapDisposition where
  | restarted : ReapDisposition
  | deferred : Int → ReapDisposition
  | notRestarted : ReapDisposition
deriving Repr, DecidableEq

/-- The `EVFILT_PROC` arm of `job_callback` (launchd.c:1412-1424): reap,
run the fitness test, and divert a throttled restart to a one-shot
`LAUNCHD_MIN_JOB_RUN_TIME` timer (the kevent registration is assumed to
succeed). -/
def job_callback_proc (shutdown_in_progress : Bool) (j : JobState)
    (status : WaitStatus) (now : Int) : JobState × ReapDisposition :=
  let j1 := job_reap j status now
  let startnow := job_restart_fitness_test shutdown_in_progress j1
  if startnow ∧ j1.throttle then
    ({ j1 with throttle := false }, .deferred LAUNCHD_MIN_JOB_RUN_TIME)
  else if startnow then (j1, .restarted)
  else (j1, .notRestarted)

/-- `job_start` (launchd.c:1492-1582), parent side, parametrized by the
current time, the `fork` result and the parent's end of the exec pipe.
If a child is live the function returns before touching anything.  The
socketpair/kevent side effects and the child branch are outside the
state; the `kevent_mod(c, EVFILT_PROC, ...)` registration is assumed to
succeed. -/
def job_start (j : JobState) (now : Int) (forkResult : Int) (efd : Int) : JobState :=
  if j.p ≠ 0 then j
  else
    let j := { j with checkedin := false, start_time := now }
    if forkResult = -1 then j
    else { j with execfd := efd, p := forkResult }

/-- `load_job` (launchd.c:1098-1226): validation, registry insertion and
the `OnDemand` default.  Trigger arming (queue dirs, watch paths, timers,
calendar alarms) only registers kevents and opens descriptors, so it is
outside the registry state; `job_start` on `startnow` is applied with the
caller-supplied fork parameters. -/
def load_job (jobs : List JobState) (pload : LaunchData)
    (now : Int) (forkResult : Int) (efd : Int) : List JobState × LaunchData :=
  match job_get_string pload "Label" with
  | none => (jobs, .ld_errno EINVAL)
  | some label =>
    if jobs.any (fun j => j.label = label) then (jobs, .ld_errno EEXIST)
    else if (launch_data_dict_lookup pload "Program").isNone ∧
            (launch_data_dict_lookup pload "ProgramArguments").isNone then
      (jobs, .ld_errno EINVAL)
    else
      let ldj0 := launch_data_revoke_fds pload
      let ldj :=
        if (launch_data_dict_lookup ldj0 "OnDemand").isNone then
          launch_data_dict_insert ldj0 "OnDemand" (.ld_bool true)
        else ldj0
      let j : JobState :=
        { label := label, ldj := ldj, p := 0, start_time := 0, failed_exits := 0,
          throttle := false, checkedin := false, firstborn := false, execfd := 0,
          debug := job_get_bool ldj "Debug" }
      let startnow := (¬job_get_bool ldj "OnDemand") ∨ job_get_bool ldj "RunAtLoad"
      let j := if startnow then job_start j now forkResult efd else j
      (jobs ++ [j], .ld_errno 0)

/-! ## The control-plane dispatcher (launchd.c `ipc_readmsg*`)

External kernel values a handler reads back (old log mask, old umask)
are inputs; the connection's bound job (`c->j`, a pointer into the
registry in C) is carried on the connection value itself. -/

structure ConnState where
  j : Option JobState
  disabled_batch : Bool
deriving DecidableEq

structure LaunchdState where
  jobs : List JobState
  shutdown_in_progress : Bool
  batch_disabler_count : Nat
  user_env : List (String × String)
deriving DecidableEq

/-- `batch_job_enable` (launchd.c:1083-1096). -/
def batch_job_enable (e : Bool) (st : LaunchdState) (c : ConnState) :
    LaunchdState × ConnState :=
  if e ∧ c.disabled_batch then
    ({ st with batch_disabler_count := st.batch_disabler_count - 1 },
     { c with disabled_batch := false })
  else if ¬e ∧ ¬c.disabled_batch then
    ({ st with batch_disabler_count := st.batch_disabler_count + 1 },
     { c with disabled_batch := true })
  else (st, c)

/-- `do_shutdown` (launchd.c): sets the global flag, disables the async
queue and SIGTERMs every job (signals are kernel effects). -/
def do_shutdown (st : LaunchdState) : LaunchdState :=
  { st with shutdown_in_progress := true }

/-- `setstdio` (launchd.c:1063-1081): response value only. -/
def setstdio (o : LaunchData) : LaunchData :=
  match o with
  | .ld_string _ => .ld_errno 0
  | .ld_fd _ => .ld_errno 0
  | _ => .ld_errno EINVAL

/-- `get_jobs` (launchd.c:1228-1250) for a NULL label: dict of copies. -/
def get_jobs_all : List JobState → LDDict
  | [] => .nil
  | j :: rest => .cons j.label j.ldj (get_jobs_all rest)

/-- `get_jobs` (launchd.c:1228-1250) for a concrete label. -/
def get_jobs_one (jobs : List JobState) (which : String) : LaunchData :=
  match jobs.reverse.find? (fun j => j.label = which) with
  | some j => j.ldj
  | none => .ld_errno ESRCH

/-- `attach_bonjourfds_to_job` (launchd.c:912-927) over one dict entry. -/
def attach_bonjourfds_to_job (jobs : List JobState) (key : String)
    (o : LaunchData) : List JobState :=
  jobs.map (fun j =>
    if j.label = key then
      { j with ldj := launch_data_dict_insert j.ldj "BonjourFDs" o }
    else j)

/-- The `WorkaroundBonjour` iteration (launch_data_dict_iterate). -/
def attach_bonjourfds_iter (jobs : List JobState) : LDDict → List JobState
  | .nil => jobs
  | .cons k v rest => attach_bonjourfds_iter (attach_bonjourfds_to_job jobs k v) rest

/-- The `SetUserEnvironment` iteration (`set_user_env`): setenv for each
string-valued entry. -/
def set_user_env_iter (env : List (String × String)) : LDDict → List (String × String)
  | .nil => env
  | .cons k v rest =>
    match v with
    | .ld_string s => set_user_env_iter ((k, s) :: env.filter (fun p => p.1 ≠ k)) rest
    | _ => set_user_env_iter env rest

/-- External kernel values the introspection handlers read back. -/
structure Externals where
  oldlogmask : Int
  oldumask : Int
  now : Int
  forkResult : Int
  efd : Int
deriving DecidableEq

/-- `load_job` folded over a `SubmitJob` array argument. -/
def load_job_array (jobs : List JobState) (ext : Externals) :
    LDArr → List JobState × LDArr
  | .nil => (jobs, .nil)
  | .cons d rest =>
    let r := load_job jobs d ext.now ext.forkResult ext.efd
    let rr := load_job_array r.1 ext rest
    (rr.1, .cons r.2 rr.2)

/-- Result of one `ipc_readmsg2` dispatch: the updated supervisor state,
the updated connection, and `rmc->resp` (still `NULL` when no verb
matched). -/
structure DispatchResult where
  st : LaunchdState
  c : ConnState
  resp : Option LaunchData
deriving DecidableEq

/-- `ipc_readmsg2` (launchd.c:929-1061): the command dispatch chain.
`data` is NULL (`none`) when the message was a bare command string.
Handlers whose effects are pure kernel calls (stop signals, tty reload,
rlimits, rusage, log mask, umask) return their response values with the
kernel readbacks taken from `ext`. -/
def ipc_readmsg2 (ext : Externals) (st : LaunchdState) (c : ConnState)
    (data : Option LaunchData) (cmd : String) (prev : Option LaunchData) :
    DispatchResult :=
  if prev.isSome then ⟨st, c, prev⟩ else
  if cmd = "StartJob" then
    let s := launch_data_get_string (data.getD .ld_blob)
    let found := st.jobs.any (fun j => some j.label = s)
    let jobs := st.jobs.map (fun j =>
      if some j.label = s then job_start j ext.now ext.forkResult ext.efd else j)
    ⟨{ st with jobs := jobs }, c, some (.ld_errno (if found then 0 else ESRCH))⟩
  else if cmd = "StopJob" then
    let s := launch_data_get_string (data.getD .ld_blob)
    let found := st.jobs.any (fun j => some j.label = s)
    ⟨st, c, some (.ld_errno (if found then 0 else ESRCH))⟩
  else if cmd = "RemoveJob" then
    let s := launch_data_get_string (data.getD .ld_blob)
    let found := st.jobs.any (fun j => some j.label = s)
    let jobs := st.jobs.filter (fun j => some j.label ≠ s)
    ⟨{ st with jobs := jobs }, c, some (.ld_errno (if found then 0 else ESRCH))⟩
  else if cmd = "SubmitJob" then
    match data.getD .ld_blob with
    | .ld_array ds =>
      let r := load_job_array st.jobs ext ds
      ⟨{ st with jobs := r.1 }, c, some (.ld_array r.2)⟩
    | _ =>
      let r := load_job st.jobs (data.getD .ld_blob) ext.now ext.forkResult ext.efd
      ⟨{ st with jobs := r.1 }, c, some r.2⟩
  else if cmd = "WorkaroundBonjour" then
    let jobs := match data.getD .ld_blob with
      | .ld_dict es => attach_bonjourfds_iter st.jobs es
      | _ => st.jobs
    ⟨{ st with jobs := jobs }, c, some (.ld_errno 0)⟩
  else if cmd = "UnsetUserEnvironment" then
    let env := match launch_data_get_string (data.getD .ld_blob) with
      | some k => st.user_env.filter (fun p => p.1 ≠ k)
      | none => st.user_env
    ⟨{ st with user_env := env }, c, some (.ld_errno 0)⟩
  else if cmd = "GetUserEnvironment" then
    ⟨st, c, some (.ld_dict (st.user_env.foldr
        (fun p acc => LDDict.cons p.1 (.ld_string p.2) acc) .nil))⟩
  else if cmd = "SetUserEnvironment" then
    let env := match data.getD .ld_blob with
      | .ld_dict es => set_user_env_iter st.user_env es
      | _ => st.user_env
    ⟨{ st with user_env := env }, c, some (.ld_errno 0)⟩
  else if cmd = "CheckIn" then
    match c.j with
    | some j =>
      let resp :=
        if (launch_data_dict_lookup j.ldj "Timeout").isNone then
          launch_data_dict_insert j.ldj "Timeout" (.ld_integer LAUNCHD_MIN_JOB_RUN_TIME)
        else j.ldj
      ⟨st, { c with j := some { j with checkedin := true } }, some resp⟩
    | none => ⟨st, c, some (.ld_errno EACCES)⟩
  else if cmd = "ReloadTTYS" then ⟨st, c, some (.ld_errno 0)⟩
  else if cmd = "Shutdown" then ⟨do_shutdown st, c, some (.ld_errno 0)⟩
  else if cmd = "GetJobs" then
    ⟨st, c, some (launch_data_revoke_fds (.ld_dict (get_jobs_all st.jobs)))⟩
  else if cmd = "GetResourceLimits" then ⟨st, c, some .ld_blob⟩
  else if cmd = "SetResourceLimits" then ⟨st, c, some .ld_blob⟩
  else if cmd = "GetJob" then
    let r := match launch_data_get_string (data.getD .ld_blob) with
      | some which => get_jobs_one st.jobs which
      | none => .ld_dict (get_jobs_all st.jobs)
    ⟨st, c, some (launch_data_revoke_fds r)⟩
  else if cmd = "GetJobWithHandles" then
    let r := match launch_data_get_string (data.getD .ld_blob) with
      | some which => get_jobs_one st.jobs which
      | none => .ld_dict (get_jobs_all st.jobs)
    ⟨st, c, some r⟩
  else if cmd = "SetLogMask" then ⟨st, c, some (.ld_integer ext.oldlogmask)⟩
  else if cmd = "GetLogMask" then ⟨st, c, some (.ld_integer ext.oldlogmask)⟩
  else if cmd = "SetUmask" then ⟨st, c, some (.ld_integer ext.oldumask)⟩
  else if cmd = "GetUmask" then ⟨st, c, some (.ld_integer ext.oldumask)⟩
  else if cmd = "GetRUsageSelf" then ⟨st, c, some .ld_blob⟩
  else if cmd = "GetRUsageChildren" then ⟨st, c, some .ld_blob⟩
  else if cmd = "SetStandardOut" then ⟨st, c, some (setstdio (data.getD .ld_blob))⟩
  else if cmd = "SetStandardError" then ⟨st, c, some (setstdio (data.getD .ld_blob))⟩
  else if cmd = "BatchControl" then
    let r := batch_job_enable (launch_data_get_bool (data.getD .ld_blob)) st c
    ⟨r.1, r.2, some (.ld_errno 0)⟩
  else if cmd = "BatchQuery" then
    ⟨st, c, some (.ld_bool (st.batch_disabler_count = 0))⟩
  else ⟨st, c, prev⟩

/-- The dictionary iteration of `ipc_readmsg` over a message's entries
(`launch_data_dict_iterate(msg, ipc_readmsg2, &rmc)`). -/
def ipc_readmsg_iter (ext : Externals) (st : LaunchdState) (c : ConnState)
    (prev : Option LaunchData) : LDDict → DispatchResult
  | .nil => ⟨st, c, prev⟩
  | .cons k v rest =>
    let r := ipc_readmsg2 ext st c (some v) k prev
    ipc_readmsg_iter ext r.st r.c r.resp rest

/-- `ipc_readmsg` (launchd.c:884-910): route by top-level type and default
a missing response to `ENOSYS`.  (The send/EAGAIN path is transport.) -/
def ipc_readmsg (ext : Externals) (st : LaunchdState) (c : ConnState)
    (msg : LaunchData) : LaunchdState × ConnState × LaunchData :=
  let r : DispatchResult :=
    match msg with
    | .ld_dict es => ipc_readmsg_iter ext st c none es
    | .ld_string s => ipc_readmsg2 ext st c none s none
    | _ => ⟨st, c, some (.ld_errno EINVAL)⟩
  (r.st, r.c, r.resp.getD (.ld_errno ENOSYS))

/-- The set of command strings `ipc_readmsg2` recognizes, tested in the
same order as its dispatch chain. -/
def knownVerb (cmd : String) : Bool :=
  if cmd = "StartJob" then true
  else if cmd = "StopJob" then true
  else if cmd = "RemoveJob" then true
  else if cmd = "SubmitJob" then true
  else if cmd = "WorkaroundBonjour" then true
  else if cmd = "UnsetUserEnvironment" then true
  else if cmd = "GetUserEnvironment" then true
  else if cmd = "SetUserEnvironment" then true
  else if cmd = "CheckIn" then true
  else if cmd = "ReloadTTYS" then true
  else if cmd = "Shutdown" then true
  else if cmd = "GetJobs" then true
  else if cmd = "GetResourceLimits" then true
  else if cmd = "SetResourceLimits" then true
  else if cmd = "GetJob" then true
  else if cmd = "GetJobWithHandles" then true
  else if cmd = "SetLogMask" then true
  else if cmd = "GetLogMask" then true
  else if cmd = "SetUmask" then true
  else if cmd = "GetUmask" then true
  else if cmd = "GetRUsageSelf" then true
  else if cmd = "GetRUsageChildren" then true
  else if cmd = "SetStandardOut" then true
  else if cmd = "SetStandardError" then true
  else if cmd = "BatchControl" then true
  else if cmd = "BatchQuery" then true
  else false

/-! ## Ingestion (launchctl.c) -/

mutual
/-- `delay_to_second_pass2` (launchctl.c:772-795): sets the shared result
as soon as an entry keyed `Bonjour` is seen (without recursing into it),
otherwise recurses into dictionaries and arrays. -/
def delay_to_second_pass2 (o : LaunchData) (key : Option String) (res : Bool) : Bool :=
  if key = some "Bonjour" then true
  else
    match o with
    | .ld_dict es => dtsp2_dict es res
    | .ld_array es => dtsp2_arr es res
    | .ld_string _ => res
    | .ld_integer _ => res
    | .ld_bool _ => res
    | .ld_fd _ => res
    | .ld_errno _ => res
    | .ld_blob => res
/-- The `launch_data_dict_iterate` of `delay_to_second_pass2`. -/
def dtsp2_dict (es : LDDict) (res : Bool) : Bool :=
  match es with
  | .nil => res
  | .cons k v rest => dtsp2_dict rest (delay_to_second_pass2 v (some k) res)
/-- The array loop of `delay_to_second_pass2`. -/
def dtsp2_arr (es : LDArr) (res : Bool) : Bool :=
  match es with
  | .nil => res
  | .cons v rest => dtsp2_arr rest (delay_to_second_pass2 v none res)
end

/-- `delay_to_second_pass` (launchctl.c:797-811). -/
def delay_to_second_pass (o : LaunchData) : Bool :=
  match launch_data_dict_lookup o "Sockets" with
  | none => false
  | some socks => delay_to_second_pass2 socks none false

/-- Which submission pass `readfile` appends a surviving job to. -/
inductive Pass where
  | pass1 : Pass
  | pass2 : Pass
deriving DecidableEq

/-- The routing decision of `readfile` (launchctl.c:1006-1010) for a job
that survived the predicate filters. -/
def readfile_route (thejob : LaunchData) : Pass :=
  if delay_to_second_pass thejob then .pass2 else .pass1

mutual
/-- Claim-side predicate, following the spec's words for C6: the value
contains, at any nesting depth, a dictionary entry whose key is `Bonjour`. -/
def ld_hasBonjourKey : LaunchData → Bool
  | .ld_dict es => dict_hasBonjourKey es
  | .ld_array es => arr_hasBonjourKey es
  | _ => false
def dict_hasBonjourKey : LDDict → Bool
  | .nil => false
  | .cons k v rest =>
    k == "Bonjour" || ld_hasBonjourKey v || dict_hasBonjourKey rest
def arr_hasBonjourKey : LDArr → Bool
  | .nil => false
  | .cons v rest => ld_hasBonjourKey v || arr_hasBonjourKey rest
end

/-- Claim-side truthiness for C6, following the spec's words: `Bonjour`
may be a bool, a string or an array of strings, and registration happens
"if `Bonjour` is true or string(s)". -/
def bonjour_truthy : LaunchData → Bool
  | .ld_bool b => b
  | .ld_string _ => true
  | .ld_array _ => true
  | _ => false

mutual
/-- Claim-side predicate for C6 as stated: the value contains, at any
nesting depth, an entry whose `Bonjour` key is set to a truthy value. -/
def ld_hasTruthyBonjour : LaunchData → Bool
  | .ld_dict es => dict_hasTruthyBonjour es
  | .ld_array es => arr_hasTruthyBonjour es
  | _ => false
def dict_hasTruthyBonjour : LDDict → Bool
  | .nil => false
  | .cons k v rest =>
    (k == "Bonjour" && bonjour_truthy v) || ld_hasTruthyBonjour v ||
      dict_hasTruthyBonjour rest
def arr_hasTruthyBonjour : LDArr → Bool
  | .nil => false
  | .cons v rest => ld_hasTruthyBonjour v || arr_hasTruthyBonjour rest
end

/-- The `stat` facts `path_goodness_check` reads. -/
structure StatInfo where
  grp_writable : Bool
  oth_writable : Bool
  st_uid : Int
  is_reg : Bool
  is_dir : Bool
deriving DecidableEq

/-- `fnmatch("*.plist", path, FNM_CASEFOLD) != FNM_NOMATCH`: the path ends
in `.plist`, case-insensitively. -/
def plist_match (path : String) : Bool :=
  path.toLower.endsWith ".plist"

/-- `path_goodness_check` (launchctl.c:1063-1098), with the `stat` result
passed in (`none` = stat failed) and the invoking uid explicit. -/
def path_goodness_check (st : Option StatInfo) (path : String)
    (forceload : Bool) (uid : Int) : Bool :=
  match st with
  | none => false
  | some sb =>
    if forceload then true
    else if sb.oth_writable || sb.grp_writable then false
    else if sb.st_uid ≠ 0 ∧ sb.st_uid ≠ uid then false
    else if ¬(sb.is_reg ∨ sb.is_dir) then false
    else if ¬sb.is_dir ∧ ¬plist_match path then false
    else true

/-- Claim-side predicate for C8 as stated: exists, not group- or
other-writable unless force, owned by uid 0 or the invoking user, regular
file or directory, and files must match `*.plist` case-insensitively. -/
def path_goodness_claim (st : Option StatInfo) (path : String)
    (forceload : Bool) (uid : Int) : Bool :=
  match st with
  | none => false
  | some sb =>
    (forceload || !(sb.oth_writable || sb.grp_writable)) &&
    (decide (sb.st_uid = 0 ∨ sb.st_uid = uid)) &&
    (sb.is_reg || sb.is_dir) &&
    (sb.is_dir || plist_match path)

/-! ## Concrete inputs used by counterexamples and witnesses -/

/-- A job description whose only socket entry has `Bonjour` set to the
bool `false` (present but not truthy). -/
def bonjour_false_job : LaunchData :=
  .ld_dict (.cons "Label" (.ld_string "svc")
    (.cons "ProgramArguments" (.ld_array (.cons (.ld_string "/bin/cat") .nil))
      (.cons "Sockets"
        (.ld_dict (.cons "L"
          (.ld_dict (.cons "SockPathName" (.ld_string "/tmp/svc.sock")
            (.cons "Bonjour" (.ld_bool false) .nil))) .nil)) .nil)))

/-- A `stat` result for a path that is neither a regular file nor a
directory and is owned by uid 501. -/
def alien_socket_stat : StatInfo :=
  { grp_writable := false, oth_writable := false, st_uid := 501,
    is_reg := false, is_dir := false }

/-- A checked-in-capable job bound to a control connection. -/
def sample_ipc_job : JobState :=
  { label := "svc", ldj := .ld_dict (.cons "Label" (.ld_string "svc") .nil),
    p := 7, start_time := 0, failed_exits := 0, throttle := false,
    checkedin := false, firstborn := false, execfd := 0, debug := false }

/-- Default external readbacks for witnesses. -/
def ext0 : Externals := ⟨0, 0, 0, 5, 3⟩

/-- An empty supervisor state for witnesses. -/
def st0 : LaunchdState := ⟨[], false, 0, []⟩

/-- An unbound control connection for witnesses. -/
def conn0 : ConnState := ⟨none, false⟩

/-! ## Theorems -/

/-- C2: `job_reap` classifies an exit as bad iff the child exited
non-zero or was killed by a signal other than SIGTERM/SIGKILL, or (for a
non-OnDemand job) ran shorter than MinRunTime = 10s, in which case the job
is also marked throttled; a non-OnDemand run of at least RewardTime = 60s
first resets `failed_exits` to 0; `failed_exits` is incremented exactly
when the exit was bad; and the pid is reset to 0. -/
theorem job_reap_spec :
    ∀ (j : JobState) (status : WaitStatus) (now : Int),
      (job_reap j status now).p = 0 ∧
      (job_reap j status now).throttle =
        (j.throttle || (!(job_get_bool j.ldj "OnDemand") &&
          decide (now - j.start_time < LAUNCHD_MIN_JOB_RUN_TIME))) ∧
      (job_reap j status now).failed_exits =
        (if (!(job_get_bool j.ldj "OnDemand") &&
             decide (now - j.start_time ≥ LAUNCHD_REWARD_JOB_RUN_TIME)) = true
         then 0 else j.failed_exits) +
        (if ((match status with
              | WaitStatus.exited c => c != 0
              | WaitStatus.signaled s => !(s == SIGKILL || s == SIGTERM)) ||
             (!(job_get_bool j.ldj "OnDemand") &&
              decide (now - j.start_time < LAUNCHD_MIN_JOB_RUN_TIME))) = true
         then 1 else 0) := by
  intro j status now
  have h60 : LAUNCHD_REWARD_JOB_RUN_TIME = (60 : Int) := rfl
  have h10 : LAUNCHD_MIN_JOB_RUN_TIME = (10 : Int) := rfl
  unfold job_reap
  rcases status with c | sg <;>
    by_cases hod : job_get_bool j.ldj "OnDemand" <;>
    by_cases hlt : now - j.start_time < LAUNCHD_MIN_JOB_RUN_TIME <;>
    by_cases hge : now - j.start_time ≥ LAUNCHD_REWARD_JOB_RUN_TIME <;>
    first
    | (exfalso; rw [h60] at hge; rw [h10] at hlt; omega)
    | (simp [hod, hlt, hge] <;> split <;> simp_all)

/-- C3: after reaping, the job is restarted iff the fitness test passes
and it was not marked throttled; when it was throttled and otherwise fit,
the restart is instead deferred via a one-shot timer of MinRunTime = 10
seconds; and the fitness test passes iff the job is not the firstborn,
ServiceIPC is not required or the child had checked in, `failed_exits` is
strictly below FailureThreshold = 10, and the job is neither OnDemand nor
is a shutdown in progress. -/
theorem job_restart_fitness_spec :
    ∀ (sip : Bool) (j : JobState) (status : WaitStatus) (now : Int),
      ((job_callback_proc sip j status now).2 = ReapDisposition.restarted ↔
        (job_restart_fitness_test sip (job_reap j status now) = true ∧
         (job_reap j status now).throttle = false)) ∧
      ((job_callback_proc sip j status now).2 =
          ReapDisposition.deferred LAUNCHD_MIN_JOB_RUN_TIME ↔
        (job_restart_fitness_test sip (job_reap j status now) = true ∧
         (job_reap j status now).throttle = true)) ∧
      (job_restart_fitness_test sip (job_reap j status now) = true ↔
        ((job_reap j status now).firstborn = false ∧
         (job_get_bool (job_reap j status now).ldj "ServiceIPC" = false ∨
          (job_reap j status now).checkedin = true) ∧
         (job_reap j status now).failed_exits < LAUNCHD_FAILED_EXITS_THRESHOLD ∧
         job_get_bool (job_reap j status now).ldj "OnDemand" = false ∧
         sip = false)) := by
  intro sip j status now
  set j1 := job_reap j status now with hj1
  have hchar : job_restart_fitness_test sip j1 = true ↔
      (j1.firstborn = false ∧
       (job_get_bool j1.ldj "ServiceIPC" = false ∨ j1.checkedin = true) ∧
       j1.failed_exits < LAUNCHD_FAILED_EXITS_THRESHOLD ∧
       job_get_bool j1.ldj "OnDemand" = false ∧ sip = false) := by
    unfold job_restart_fitness_test
    by_cases h1 : j1.firstborn <;>
      by_cases h2 : job_get_bool j1.ldj "ServiceIPC" <;>
      by_cases h3 : j1.checkedin <;>
      by_cases h4 : j1.failed_exits ≥ LAUNCHD_FAILED_EXITS_THRESHOLD <;>
      by_cases h5 : job_get_bool j1.ldj "OnDemand" <;>
      by_cases h6 : sip <;>
      simp_all
  refine ⟨?_, ?_, hchar⟩ <;>
  · unfold job_callback_proc
    rw [← hj1]
    by_cases hfit : job_restart_fitness_test sip j1 = true <;>
      by_cases ht : j1.throttle <;>
      simp [hfit, ht]

/-- C9: `job_start` on a job with a live child (`pid ≠ 0`) is a no-op: the
job record, hence every field of it, is returned unchanged, so a trigger
firing while the job runs never starts a second copy. -/
theorem job_start_noop :
    ∀ (j : JobState) (now forkResult efd : Int),
      j.p ≠ 0 → job_start j now forkResult efd = j := by
  intro j now forkResult efd h
  unfold job_start
  simp [h]

/-- Witness for C9 at a concrete running job. -/
theorem job_start_noop_witness :
    job_start
      { label := "svc", ldj := .ld_dict .nil, p := 42, start_time := 5,
        failed_exits := 0, throttle := false, checkedin := true,
        firstborn := false, execfd := 0, debug := false } 100 77 3 =
      { label := "svc", ldj := .ld_dict .nil, p := 42, start_time := 5,
        failed_exits := 0, throttle := false, checkedin := true,
        firstborn := false, execfd := 0, debug := false } :=
  job_start_noop _ 100 77 3 (by decide)

/-- `job_start` never changes a job's label. -/
theorem job_start_label :
    ∀ (j : JobState) (now forkResult efd : Int),
      (job_start j now forkResult efd).label = j.label := by
  intro j now forkResult efd
  unfold job_start
  by_cases h : j.p ≠ 0
  · simp [h]
  · by_cases h2 : forkResult = -1 <;> simp [h, h2]

/-- On a successful submission `load_job` appends exactly one entry and
that entry carries the submitted label. -/
theorem load_job_success_shape :
    ∀ (jobs : List JobState) (pload : LaunchData) (now fr efd : Int) (l : String),
      job_get_string pload "Label" = some l →
      jobs.any (fun j => j.label = l) = false →
      ¬((launch_data_dict_lookup pload "Program").isNone = true ∧
        (launch_data_dict_lookup pload "ProgramArguments").isNone = true) →
      ∃ X : JobState, X.label = l ∧
        load_job jobs pload now fr efd = (jobs ++ [X], .ld_errno 0) := by
  intro jobs pload now fr efd l hl hdup hprog
  unfold load_job
  rw [hl]
  dsimp only
  rw [if_neg (by simp [hdup])]
  rw [if_neg hprog]
  refine ⟨_, ?_, rfl⟩
  split <;> split <;> first | rw [job_start_label] | rfl

/-- C4: `load_job` returns EINVAL when the Label key is missing (or not a
string) and when neither Program nor ProgramArguments is present, EEXIST
when a registry entry with the same label exists; in each error case the
registry is unchanged, and distinctness of registry labels is preserved. -/
theorem load_job_spec :
    ∀ (jobs : List JobState) (pload : LaunchData) (now fr efd : Int),
      (job_get_string pload "Label" = none →
        load_job jobs pload now fr efd = (jobs, .ld_errno EINVAL)) ∧
      (∀ l, job_get_string pload "Label" = some l →
        (jobs.any (fun j => j.label = l) = true →
          load_job jobs pload now fr efd = (jobs, .ld_errno EEXIST)) ∧
        (launch_data_dict_lookup pload "Program" = none →
         launch_data_dict_lookup pload "ProgramArguments" = none →
         jobs.any (fun j => j.label = l) = false →
          load_job jobs pload now fr efd = (jobs, .ld_errno EINVAL))) ∧
      ((jobs.map (fun j => j.label)).Nodup →
        ((load_job jobs pload now fr efd).1.map (fun j => j.label)).Nodup) := by
  intro jobs pload now fr efd
  refine ⟨?_, ?_, ?_⟩
  · intro hl
    unfold load_job
    rw [hl]
  · intro l hl
    constructor
    · intro hdup
      unfold load_job
      rw [hl]
      simp [hdup]
    · intro hp hpa hdup
      unfold load_job
      rw [hl]
      simp [hdup, hp, hpa]
  · intro hnd
    rcases hl : job_get_string pload "Label" with _ | l
    · unfold load_job; rw [hl]; exact hnd
    · by_cases hdup : jobs.any (fun j => j.label = l) = true
      · unfold load_job; rw [hl]; simp only [hdup, if_true]; exact hnd
      · rw [Bool.not_eq_true] at hdup
        by_cases hprog : ((launch_data_dict_lookup pload "Program").isNone = true ∧
            (launch_data_dict_lookup pload "ProgramArguments").isNone = true)
        · unfold load_job
          rw [hl]
          dsimp only
          rw [if_neg (by simp [hdup])]
          rw [if_pos hprog]
          exact hnd
        · obtain ⟨X, hX, heq⟩ :=
            load_job_success_shape jobs pload now fr efd l hl hdup hprog
          rw [heq]
          simp only [List.map_append, List.map_cons, List.map_nil]
          rw [List.nodup_append]
          refine ⟨hnd, List.nodup_singleton _, ?_⟩
          intro a ha hb
          simp only [List.mem_map] at ha
          obtain ⟨x, hx, hax⟩ := ha
          have hal : a = X.label := by simpa using hb
          have hxl : x.label = l := by rw [hax, hal, hX]
          have hnone := List.any_eq_false.mp hdup x hx
          simp [hxl] at hnone

/-- Witness for C4: a description with no Label key is rejected with
EINVAL and the registry stays empty. -/
theorem load_job_spec_witness :
    load_job [] (.ld_dict .nil) 0 2 3 = ([], .ld_errno EINVAL) :=
  (load_job_spec [] (.ld_dict .nil) 0 2 3).1 rfl

/-- The `cronemu_wday` loop returns only by exiting its
condition, i.e. from a working tm whose weekday field equals the target
and on which `cronemu_hour` succeeds, producing the returned tm. -/
theorem cronemu_wday_loop_exit :
    ∀ (fuel : Nat) (w : Tm) (wd hour mn : Int) (w' : Tm),
      cronemu_wday_loop fuel w wd hour mn = some w' →
      ∃ (g : Nat) (w0 : Tm), w0.tm_wday = wd ∧
        cronemu_hour g w0 hour mn = some (w', true) := by
  intro fuel
  induction fuel with
  | zero =>
    intro w wd hour mn w' hw
    simp [cronemu_wday_loop] at hw
  | succ f ih =>
    intro w wd hour mn w' hw
    rw [cronemu_wday_loop] at hw
    by_cases hwd : w.tm_wday = wd
    · rw [if_neg (not_not_intro hwd)] at hw
      rcases hch : cronemu_hour (Nat.succ f) w hour mn with _ | ⟨w1, b⟩
      · rw [hch] at hw; simp at hw
      · rw [hch] at hw
        cases b with
        | true =>
          dsimp only at hw
          simp only [Option.some.injEq] at hw
          exact ⟨Nat.succ f, w, hwd, hw ▸ hch⟩
        | false =>
          dsimp only at hw
          rcases hb : cronemu_wday_body (Nat.succ f) w1 hour mn with _ | w''
          · rw [hb] at hw; simp at hw
          · rw [hb] at hw; dsimp only at hw
            exact ih w'' wd hour mn w' hw
    · rw [if_pos hwd] at hw
      rcases hb : cronemu_wday_body (Nat.succ f) w hour mn with _ | w''
      · rw [hb] at hw; simp at hw
      · rw [hb] at hw; dsimp only at hw
        exact ih w'' wd hour mn w' hw

/-- C1: the cron-next laws fail on the code.  With spec
(month,mday,hour,minute) = (-1,-1,5,-1) and now = 2024-03-01 05:59:30
(= 1709272770, whose local decomposition has hour 5 and minute 59),
`cronemu` returns 1709272800 = 2024-03-01 06:00:00, whose local hour is 6:
the non-wildcard hour field 5 of the spec is not matched (the initial
`tm_min++` leaves minute 60 un-normalized and the final `mktime` carries
it into the hour). -/
theorem cronemu_violates_field_match_law :
    cronemu 100 (-1) (-1) 5 (-1) 1709272770 = some 1709272800 ∧
    (secs_to_tm 1709272770).tm_hour = 5 ∧
    (secs_to_tm 1709272770).tm_min = 59 ∧
    (secs_to_tm 1709272800).tm_hour = 6 := by
  refine ⟨?_, ?_, ?_, ?_⟩ <;> decide

/-- C5: when the calendar spec names a weekday, `job_set_alarm` arms the
minimum of the month/mday candidate and the weekday candidate when mday is
given, and the weekday candidate alone when mday is -1; `cronemu_wday`
normalizes weekday 7 to 0; and the weekday candidate comes from a working
tm whose weekday matches the (normalized) target and on which the
hour/minute check `cronemu_hour` succeeds. -/
theorem job_set_alarm_wday_spec :
    (∀ (fuel : Nat) (spec : CalSpec) (now l1 l2 : Int),
      spec.tm_wday ≠ -1 →
      cronemu fuel spec.tm_mon spec.tm_mday spec.tm_hour spec.tm_min now = some l1 →
      cronemu_wday fuel spec.tm_wday spec.tm_hour spec.tm_min now = some l2 →
      job_set_alarm_time fuel spec now =
        some (if spec.tm_mday ≠ -1 then min l1 l2 else l2)) ∧
    (∀ (fuel : Nat) (hour mn now : Int),
      cronemu_wday fuel 7 hour mn now = cronemu_wday fuel 0 hour mn now) ∧
    (∀ (fuel : Nat) (wd hour mn now t : Int),
      cronemu_wday fuel wd hour mn now = some t →
      ∃ (g : Nat) (w0 w' : Tm), w0.tm_wday = (if wd = 7 then 0 else wd) ∧
        cronemu_hour g w0 hour mn = some (w', true) ∧ t = tm_to_secs w') := by
  refine ⟨?_, ?_, ?_⟩
  · intro fuel spec now l1 l2 hwd h1 h2
    simp [job_set_alarm_time, h1, hwd, h2]
  · intro fuel hour mn now
    simp [cronemu_wday]
  · intro fuel wd hour mn now t h
    unfold cronemu_wday at h
    dsimp only at h
    obtain ⟨w', hl, ht⟩ := Option.map_eq_some'.mp h
    obtain ⟨g, w0, hw0, hch⟩ :=
      cronemu_wday_loop_exit fuel _ (if wd = 7 then 0 else wd) hour mn w' hl
    exact ⟨g, w0, w', hw0, hch, ht.symm⟩

/-- Witness for C5 at a concrete input: spec
(minute 30, hour 6, mday -1, wday 1, mon -1) at now = 1709272770
(2024-03-01 05:59:30): the weekday candidate alone is armed. -/
theorem job_set_alarm_wday_spec_witness :
    job_set_alarm_time 100
      ⟨30, 6, -1, 1, -1⟩ 1709272770 = some 1709533800 := by
  have h := job_set_alarm_wday_spec.1 100 ⟨30, 6, -1, 1, -1⟩ 1709272770
      1709274600 1709533800 (by decide) (by decide) (by decide)
  simpa using h


mutual
/-- `delay_to_second_pass2` equals the accumulator joined with key-match
and the recursive Bonjour-key search. -/
theorem delay2_eq (o : LaunchData) (key : Option String) (res : Bool) :
    delay_to_second_pass2 o key res =
      ((key == some "Bonjour") || res || ld_hasBonjourKey o) := by
  cases o with
  | ld_dict es =>
    rw [delay_to_second_pass2]
    by_cases hk : key = some "Bonjour"
    · rw [if_pos hk, hk]; rfl
    · have hb : (key == some "Bonjour") = false := beq_eq_false_iff_ne.mpr hk
      rw [if_neg hk, dtsp2_dict_eq es res, hb,
        show ld_hasBonjourKey (.ld_dict es) = dict_hasBonjourKey es from rfl,
        Bool.false_or]
  | ld_array es =>
    rw [delay_to_second_pass2]
    by_cases hk : key = some "Bonjour"
    · rw [if_pos hk, hk]; rfl
    · have hb : (key == some "Bonjour") = false := beq_eq_false_iff_ne.mpr hk
      rw [if_neg hk, dtsp2_arr_eq es res, hb,
        show ld_hasBonjourKey (.ld_array es) = arr_hasBonjourKey es from rfl,
        Bool.false_or]
  | ld_string v =>
    rw [delay_to_second_pass2]
    by_cases hk : key = some "Bonjour"
    · rw [if_pos hk, hk]; rfl
    · have hb : (key == some "Bonjour") = false := beq_eq_false_iff_ne.mpr hk
      rw [if_neg hk, hb,
        show ld_hasBonjourKey (.ld_string v) = false from rfl,
        Bool.or_false, Bool.false_or]
  | ld_integer v =>
    rw [delay_to_second_pass2]
    by_cases hk : key = some "Bonjour"
    · rw [if_pos hk, hk]; rfl
    · have hb : (key == some "Bonjour") = false := beq_eq_false_iff_ne.mpr hk
      rw [if_neg hk, hb,
        show ld_hasBonjourKey (.ld_integer v) = false from rfl,
        Bool.or_false, Bool.false_or]
  | ld_bool v =>
    rw [delay_to_second_pass2]
    by_cases hk : key = some "Bonjour"
    · rw [if_pos hk, hk]; rfl
    · have hb : (key == some "Bonjour") = false := beq_eq_false_iff_ne.mpr hk
      rw [if_neg hk, hb,
        show ld_hasBonjourKey (.ld_bool v) = false from rfl,
        Bool.or_false, Bool.false_or]
  | ld_fd v =>
    rw [delay_to_second_pass2]
    by_cases hk : key = some "Bonjour"
    · rw [if_pos hk, hk]; rfl
    · have hb : (key == some "Bonjour") = false := beq_eq_false_iff_ne.mpr hk
      rw [if_neg hk, hb,
        show ld_hasBonjourKey (.ld_fd v) = false from rfl,
        Bool.or_false, Bool.false_or]
  | ld_errno v =>
    rw [delay_to_second_pass2]
    by_cases hk : key = some "Bonjour"
    · rw [if_pos hk, hk]; rfl
    · have hb : (key == some "Bonjour") = false := beq_eq_false_iff_ne.mpr hk
      rw [if_neg hk, hb,
        show ld_hasBonjourKey (.ld_errno v) = false from rfl,
        Bool.or_false, Bool.false_or]
  | ld_blob =>
    rw [delay_to_second_pass2]
    by_cases hk : key = some "Bonjour"
    · rw [if_pos hk, hk]; rfl
    · have hb : (key == some "Bonjour") = false := beq_eq_false_iff_ne.mpr hk
      rw [if_neg hk, hb,
        show ld_hasBonjourKey .ld_blob = false from rfl,
        Bool.or_false, Bool.false_or]
/-- Dict-iteration form of `delay2_eq`. -/
theorem dtsp2_dict_eq (es : LDDict) (res : Bool) :
    dtsp2_dict es res = (res || dict_hasBonjourKey es) := by
  cases es with
  | nil => rw [dtsp2_dict, dict_hasBonjourKey]; simp
  | cons k v rest =>
    rw [dtsp2_dict, dict_hasBonjourKey, dtsp2_dict_eq rest,
      delay2_eq v (some k) res]
    have hsome : (some k == some "Bonjour") = (k == "Bonjour") := by
      cases hb : k == "Bonjour" <;> simp_all
    rw [hsome]
    cases hb1 : k == "Bonjour" <;> cases res <;>
      cases hb2 : ld_hasBonjourKey v <;>
      cases hb3 : dict_hasBonjourKey rest <;> rfl
/-- Array-iteration form of `delay2_eq`. -/
theorem dtsp2_arr_eq (es : LDArr) (res : Bool) :
    dtsp2_arr es res = (res || arr_hasBonjourKey es) := by
  cases es with
  | nil => rw [dtsp2_arr, arr_hasBonjourKey]; simp
  | cons v rest =>
    rw [dtsp2_arr, arr_hasBonjourKey, dtsp2_arr_eq rest,
      delay2_eq v none res]
    cases res <;> cases hb2 : ld_hasBonjourKey v <;>
      cases hb3 : arr_hasBonjourKey rest <;> rfl
end

/-- C6 counterexample: a description whose only `Bonjour` entry is the
bool `false` — not a truthy value anywhere in the tree — is nevertheless
routed to pass 2, refuting the claim that pass-2 routing requires a
truthy `Bonjour` value. -/
theorem delay_to_second_pass_counterexample :
    readfile_route bonjour_false_job = Pass.pass2 ∧
    ld_hasTruthyBonjour bonjour_false_job = false := by
  constructor <;> rfl

/-- C6 (amended): a description is routed to pass 2 iff its `Sockets`
dictionary contains, at any nesting depth, an entry whose key is
`Bonjour`, regardless of that entry's value; descriptions with no
`Sockets` key go to pass 1. -/
theorem readfile_route_pass2_iff :
    ∀ (thejob : LaunchData),
      readfile_route thejob = Pass.pass2 ↔
        ∃ socks, launch_data_dict_lookup thejob "Sockets" = some socks ∧
          ld_hasBonjourKey socks = true := by
  intro thejob
  unfold readfile_route delay_to_second_pass
  rcases hs : launch_data_dict_lookup thejob "Sockets" with _ | socks
  · simp
  · dsimp only
    rw [delay2_eq socks none false]
    by_cases hb : ld_hasBonjourKey socks = true <;> simp [hb]

/-- C8 counterexample: with force (-F) set, a path that exists but is
neither a regular file nor a directory and is owned by neither root nor
the invoking user passes `path_goodness_check`, refuting the claim that
force only waives the group/other-writability check. -/
theorem path_goodness_check_counterexample :
    path_goodness_check (some alien_socket_stat) "/tmp/daemons" true 0 = true ∧
    path_goodness_claim (some alien_socket_stat) "/tmp/daemons" true 0 = false := by
  constructor <;> rfl

/-- C8 (amended): `path_goodness_check` accepts a path iff it exists and
either force (-F) is set — which waives every remaining check — or the
path is not group/other-writable, is owned by uid 0 or the invoking user,
is a regular file or directory, and non-directories match `*.plist`
case-insensitively (`path_goodness_claim` with force off is exactly those
four checks). -/
theorem path_goodness_check_force_iff :
    ∀ (st : Option StatInfo) (path : String) (force : Bool) (uid : Int),
      path_goodness_check st path force uid =
        (st.isSome && (force || path_goodness_claim st path false uid)) := by
  intro st path force uid
  cases st with
  | none => rfl
  | some sb =>
    obtain ⟨gw, ow, u, ir, idir⟩ := sb
    unfold path_goodness_check path_goodness_claim
    by_cases hf : force = true
    · simp [hf]
    · rw [Bool.not_eq_true] at hf
      subst hf
      by_cases hu0 : u = 0 <;> by_cases huu : u = uid <;>
        cases gw <;> cases ow <;> cases ir <;> cases idir <;>
        cases hp : plist_match path <;>
        simp_all

/-- C7: a `CheckIn` on a connection bound to a job returns the job's
description, augmented with a `Timeout` of MinRunTime = 10 when absent,
and marks the bound job checked in; a `CheckIn` on an unbound connection
returns errno EACCES. -/
theorem ipc_checkin_spec :
    ∀ (ext : Externals) (st : LaunchdState) (c : ConnState)
      (data : Option LaunchData),
      (∀ jb, c.j = some jb →
        ipc_readmsg2 ext st c data "CheckIn" none =
          ⟨st, { c with j := some { jb with checkedin := true } },
            some (if (launch_data_dict_lookup jb.ldj "Timeout").isNone then
                    launch_data_dict_insert jb.ldj "Timeout"
                      (.ld_integer LAUNCHD_MIN_JOB_RUN_TIME)
                  else jb.ldj)⟩) ∧
      (c.j = none →
        ipc_readmsg2 ext st c data "CheckIn" none =
          ⟨st, c, some (.ld_errno EACCES)⟩) := by
  intro ext st c data
  have hnav : ∀ (prevnone : Option LaunchData), prevnone = none →
      ipc_readmsg2 ext st c data "CheckIn" prevnone =
        (match c.j with
          | some j =>
            ⟨st, { c with j := some { j with checkedin := true } },
              some (if (launch_data_dict_lookup j.ldj "Timeout").isNone then
                      launch_data_dict_insert j.ldj "Timeout"
                        (.ld_integer LAUNCHD_MIN_JOB_RUN_TIME)
                    else j.ldj)⟩
          | none => ⟨st, c, some (.ld_errno EACCES)⟩) := by
    intro prevnone hp
    subst hp
    rw [ipc_readmsg2]
    rw [if_neg (by decide)]
    rw [if_neg (by decide)]
    rw [if_neg (by decide)]
    rw [if_neg (by decide)]
    rw [if_neg (by decide)]
    rw [if_neg (by decide)]
    rw [if_neg (by decide)]
    rw [if_neg (by decide)]
    rw [if_neg (by decide)]
    rw [if_pos rfl]
  constructor
  · intro jb hj
    rw [hnav none rfl, hj]
  · intro hj
    rw [hnav none rfl, hj]

/-- Witness for C7: checking in on a connection bound to `sample_ipc_job`
(whose description has no `Timeout`) returns the description with
`Timeout = 10` inserted and flips `checkedin`; the unbound case returns
EACCES. -/
theorem ipc_checkin_spec_witness :
    ipc_readmsg2 ext0 st0 ⟨some sample_ipc_job, false⟩ none "CheckIn" none =
      ⟨st0, ⟨some { sample_ipc_job with checkedin := true }, false⟩,
        some (.ld_dict (.cons "Label" (.ld_string "svc")
          (.cons "Timeout" (.ld_integer 10) .nil)))⟩ ∧
    ipc_readmsg2 ext0 st0 conn0 none "CheckIn" none =
      ⟨st0, conn0, some (.ld_errno EACCES)⟩ := by
  constructor
  · have h := (ipc_checkin_spec ext0 st0 ⟨some sample_ipc_job, false⟩ none).1
      sample_ipc_job rfl
    rw [h]
    decide
  · exact (ipc_checkin_spec ext0 st0 conn0 none).2 rfl

/-- Every recognized verb produces a response; an unrecognized one leaves
`rmc->resp` NULL. -/
theorem ipc_readmsg2_resp_isSome :
    ∀ (ext : Externals) (st : LaunchdState) (c : ConnState)
      (data : Option LaunchData) (cmd : String),
      ((ipc_readmsg2 ext st c data cmd none).resp).isSome = knownVerb cmd := by
  intro ext st c data cmd
  unfold ipc_readmsg2 knownVerb
  rw [if_neg (by decide : ¬((none : Option LaunchData).isSome = true))]
  by_cases h1 : cmd = "StartJob"
  · rw [if_pos h1, if_pos h1]; rfl
  rw [if_neg h1, if_neg h1]
  by_cases h2 : cmd = "StopJob"
  · rw [if_pos h2, if_pos h2]; rfl
  rw [if_neg h2, if_neg h2]
  by_cases h3 : cmd = "RemoveJob"
  · rw [if_pos h3, if_pos h3]; rfl
  rw [if_neg h3, if_neg h3]
  by_cases h4 : cmd = "SubmitJob"
  · rw [if_pos h4, if_pos h4]; cases hd : data.getD LaunchData.ld_blob <;> rfl
  rw [if_neg h4, if_neg h4]
  by_cases h5 : cmd = "WorkaroundBonjour"
  · rw [if_pos h5, if_pos h5]; rfl
  rw [if_neg h5, if_neg h5]
  by_cases h6 : cmd = "UnsetUserEnvironment"
  · rw [if_pos h6, if_pos h6]; rfl
  rw [if_neg h6, if_neg h6]
  by_cases h7 : cmd = "GetUserEnvironment"
  · rw [if_pos h7, if_pos h7]; rfl
  rw [if_neg h7, if_neg h7]
  by_cases h8 : cmd = "SetUserEnvironment"
  · rw [if_pos h8, if_pos h8]; rfl
  rw [if_neg h8, if_neg h8]
  by_cases h9 : cmd = "CheckIn"
  · rw [if_pos h9, if_pos h9]; cases hcj : c.j <;> rfl
  rw [if_neg h9, if_neg h9]
  by_cases h10 : cmd = "ReloadTTYS"
  · rw [if_pos h10, if_pos h10]; rfl
  rw [if_neg h10, if_neg h10]
  by_cases h11 : cmd = "Shutdown"
  · rw [if_pos h11, if_pos h11]; rfl
  rw [if_neg h11, if_neg h11]
  by_cases h12 : cmd = "GetJobs"
  · rw [if_pos h12, if_pos h12]; rfl
  rw [if_neg h12, if_neg h12]
  by_cases h13 : cmd = "GetResourceLimits"
  · rw [if_pos h13, if_pos h13]; rfl
  rw [if_neg h13, if_neg h13]
  by_cases h14 : cmd = "SetResourceLimits"
  · rw [if_pos h14, if_pos h14]; rfl
  rw [if_neg h14, if_neg h14]
  by_cases h15 : cmd = "GetJob"
  · rw [if_pos h15, if_pos h15]; rfl
  rw [if_neg h15, if_neg h15]
  by_cases h16 : cmd = "GetJobWithHandles"
  · rw [if_pos h16, if_pos h16]; rfl
  rw [if_neg h16, if_neg h16]
  by_cases h17 : cmd = "SetLogMask"
  · rw [if_pos h17, if_pos h17]; rfl
  rw [if_neg h17, if_neg h17]
  by_cases h18 : cmd = "GetLogMask"
  · rw [if_pos h18, if_pos h18]; rfl
  rw [if_neg h18, if_neg h18]
  by_cases h19 : cmd = "SetUmask"
  · rw [if_pos h19, if_pos h19]; rfl
  rw [if_neg h19, if_neg h19]
  by_cases h20 : cmd = "GetUmask"
  · rw [if_pos h20, if_pos h20]; rfl
  rw [if_neg h20, if_neg h20]
  by_cases h21 : cmd = "GetRUsageSelf"
  · rw [if_pos h21, if_pos h21]; rfl
  rw [if_neg h21, if_neg h21]
  by_cases h22 : cmd = "GetRUsageChildren"
  · rw [if_pos h22, if_pos h22]; rfl
  rw [if_neg h22, if_neg h22]
  by_cases h23 : cmd = "SetStandardOut"
  · rw [if_pos h23, if_pos h23]; rfl
  rw [if_neg h23, if_neg h23]
  by_cases h24 : cmd = "SetStandardError"
  · rw [if_pos h24, if_pos h24]; rfl
  rw [if_neg h24, if_neg h24]
  by_cases h25 : cmd = "BatchControl"
  · rw [if_pos h25, if_pos h25]; rfl
  rw [if_neg h25, if_neg h25]
  by_cases h26 : cmd = "BatchQuery"
  · rw [if_pos h26, if_pos h26]; rfl
  rw [if_neg h26, if_neg h26]
  rfl

/-- C10: the dispatcher always produces exactly one response: errno EINVAL
when the top-level message is neither a dictionary nor a string, errno
ENOSYS when the named command matches no known verb, and the matched
handler's response otherwise (stated for a bare command string and for
the protocol's dictionary-with-one-command form). -/
theorem ipc_readmsg_spec :
    ∀ (ext : Externals) (st : LaunchdState) (c : ConnState) (msg : LaunchData),
      ((∀ es, msg ≠ .ld_dict es) → (∀ v, msg ≠ .ld_string v) →
        (ipc_readmsg ext st c msg).2.2 = .ld_errno EINVAL) ∧
      (∀ v, msg = .ld_string v →
        (knownVerb v = false →
          (ipc_readmsg ext st c msg).2.2 = .ld_errno ENOSYS) ∧
        (knownVerb v = true →
          ∃ r, (ipc_readmsg2 ext st c none v none).resp = some r ∧
            (ipc_readmsg ext st c msg).2.2 = r)) ∧
      (∀ k v, msg = .ld_dict (.cons k v .nil) →
        (knownVerb k = false →
          (ipc_readmsg ext st c msg).2.2 = .ld_errno ENOSYS) ∧
        (knownVerb k = true →
          ∃ r, (ipc_readmsg2 ext st c (some v) k none).resp = some r ∧
            (ipc_readmsg ext st c msg).2.2 = r)) := by
  intro ext st c msg
  refine ⟨?_, ?_, ?_⟩
  · intro hnd hns
    cases msg with
    | ld_dict es => exact absurd rfl (hnd es)
    | ld_string v => exact absurd rfl (hns v)
    | ld_array es => rfl
    | ld_integer v => rfl
    | ld_bool v => rfl
    | ld_fd v => rfl
    | ld_errno v => rfl
    | ld_blob => rfl
  · intro v hmsg
    subst hmsg
    have hiso := ipc_readmsg2_resp_isSome ext st c none v
    constructor
    · intro hk
      rw [hk] at hiso
      have hr : (ipc_readmsg2 ext st c none v none).resp = none := by
        rcases h : (ipc_readmsg2 ext st c none v none).resp with _ | r
        · rfl
        · rw [h] at hiso; simp at hiso
      show ((ipc_readmsg2 ext st c none v none).resp).getD _ = _
      rw [hr]
      rfl
    · intro hk
      rw [hk] at hiso
      rcases h : (ipc_readmsg2 ext st c none v none).resp with _ | r
      · rw [h] at hiso; simp at hiso
      · refine ⟨r, rfl, ?_⟩
        show ((ipc_readmsg2 ext st c none v none).resp).getD _ = _
        rw [h]
        rfl
  · intro k v hmsg
    subst hmsg
    have hiso := ipc_readmsg2_resp_isSome ext st c (some v) k
    have hresp : (ipc_readmsg ext st c (.ld_dict (.cons k v .nil))).2.2 =
        ((ipc_readmsg2 ext st c (some v) k none).resp).getD (.ld_errno ENOSYS) := by
      show ((ipc_readmsg_iter ext st c none (.cons k v .nil)).resp).getD _ = _
      rw [ipc_readmsg_iter]
      rfl
    constructor
    · intro hk
      rw [hk] at hiso
      have hr : (ipc_readmsg2 ext st c (some v) k none).resp = none := by
        rcases h : (ipc_readmsg2 ext st c (some v) k none).resp with _ | r
        · rfl
        · rw [h] at hiso; simp at hiso
      rw [hresp, hr]
      rfl
    · intro hk
      rw [hk] at hiso
      rcases h : (ipc_readmsg2 ext st c (some v) k none).resp with _ | r
      · rw [h] at hiso; simp at hiso
      · exact ⟨r, rfl, by rw [hresp, h]; rfl⟩

/-- Witness for C10: a bare boolean message yields EINVAL; the unknown
verb "Frobnicate" yields ENOSYS; the known verb "Shutdown" yields the
handler's response errno 0. -/
theorem ipc_readmsg_spec_witness :
    (ipc_readmsg ext0 st0 conn0 (.ld_bool true)).2.2 = .ld_errno EINVAL ∧
    (ipc_readmsg ext0 st0 conn0 (.ld_string "Frobnicate")).2.2 =
      .ld_errno ENOSYS ∧
    (ipc_readmsg ext0 st0 conn0 (.ld_string "Shutdown")).2.2 = .ld_errno 0 := by
  refine ⟨?_, ?_, ?_⟩
  · exact (ipc_readmsg_spec ext0 st0 conn0 (.ld_bool true)).1
      (fun es h => LaunchData.noConfusion h)
      (fun v h => LaunchData.noConfusion h)
  · exact ((ipc_readmsg_spec ext0 st0 conn0 (.ld_string "Frobnicate")).2.1
      "Frobnicate" rfl).1 (by decide)
  · obtain ⟨r, hr, hq⟩ := ((ipc_readmsg_spec ext0 st0 conn0
      (.ld_string "Shutdown")).2.1 "Shutdown" rfl).2 (by decide)
    rw [hq]
    have : r = .ld_errno 0 := by
      have := hr.symm.trans (rfl : (ipc_readmsg2 ext0 st0 conn0 none "Shutdown" none).resp = some (.ld_errno 0))
      exact Option.some.inj this
    rw [this]


end Launchd
